import Mathlib

/-!
Shallow embedding of the CineScope movie front-end core: the MovieAPI
response cache with TTL expiry, the UIManager pagination/search state
machine, the debounced search handler, and the persisted-state loaders
of AuthManager and FavoritesManager.  Each definition mirrors one
function of the source; timestamps and page numbers are JS numbers,
modelled as Int (durations of the debounce timer as Nat).
-/

namespace Cinescope

/-- Movie payload items are opaque to the controller and the cache;
only identity matters for the properties proved here. -/
structure Movie where
  id : Int
deriving DecidableEq, Repr

/-- Shape of an upstream list response as consumed by the controller:
fields results, total_pages, page (page is never read back). -/
structure MovieListResponse where
  results : List Movie
  total_pages : Int
  page : Int
deriving DecidableEq, Repr

/-! ## MovieAPI cache (src/unnamed/part_002)

The cache is a JS Map from URL strings to an object with fields data and
timestamp; a Map with unique keys is embedded as a function from keys to
optional entries. -/

/-- Whitespace as recognised by the trim of the source's query strings
(space, tab, newline, carriage return cover every input the app can
produce). -/
def isWhitespaceChar (c : Char) : Bool :=
  c = ' ' ∨ c = '\t' ∨ c = '\n' ∨ c = '\r'

/-- JS String.prototype.trim: strip leading and trailing whitespace. -/
def trimString (s : String) : String :=
  String.mk (((s.data.dropWhile isWhitespaceChar).reverse.dropWhile
    isWhitespaceChar).reverse)

/-- One cache entry: the stored payload plus its insertion timestamp,
as built by MovieAPI.setCache. -/
structure CacheEntry (α : Type) where
  data : α
  timestamp : Int
deriving DecidableEq, Repr

/-- The cache Map of MovieAPI, keyed by request URL. -/
def CacheMap (α : Type) : Type := String → Option (CacheEntry α)

/-- Map.set: overwrite the binding of one key. -/
def mapSet {α : Type} (m : CacheMap α) (k : String) (e : CacheEntry α) : CacheMap α :=
  fun k2 => if k2 = k then some e else m k2

/-- Map.delete: drop the binding of one key. -/
def mapDelete {α : Type} (m : CacheMap α) (k : String) : CacheMap α :=
  fun k2 => if k2 = k then none else m k2

/-- this.cacheExpiry = 5 * 60 * 1000 (five minutes in milliseconds). -/
def cacheExpiry : Int := 5 * 60 * 1000

/-- MovieAPI.setCache: unconditionally store the payload under the key
with a fresh timestamp taken from Date.now(). -/
def setCache {α : Type} (m : CacheMap α) (k : String) (d : α) (now : Int) : CacheMap α :=
  mapSet m k ⟨d, now⟩

/-- MovieAPI.getCache: return null on a missing key; on a present key,
delete and return null when now - timestamp > cacheExpiry, otherwise
return the stored data.  Returns the result together with the cache
after the lookup's side effect. -/
def getCache {α : Type} (m : CacheMap α) (k : String) (now : Int) :
    Option α × CacheMap α :=
  match m k with
  | none => (none, m)
  | some cached =>
    if now - cached.timestamp > cacheExpiry then
      (none, mapDelete m k)
    else
      (some cached.data, m)

/-- URL of the search endpoint as built by buildURL for searchMovies:
endpoint plus the query and page parameters (api_key elided; it is
constant across all keys and irrelevant to key identity). -/
def searchURL (query : String) (page : Int) : String :=
  "/search/movie?query=" ++ query ++ "&page=" ++ toString page

/-- MovieAPI.fetchData: consult the cache first; on a hit return the
cached payload and touch nothing else; on a miss consult the network
(an oracle from URLs to a response or a transport error), store a
successful response, and translate a failure into the fixed error
message.  The third component records the URLs actually fetched over
the network. -/
def fetchData (m : CacheMap MovieListResponse)
    (net : String → Except String MovieListResponse) (now : Int) (url : String) :
    Except String MovieListResponse × CacheMap MovieListResponse × List String :=
  match getCache m url now with
  | (some cached, m2) => (Except.ok cached, m2, [])
  | (none, m2) =>
    match net url with
    | Except.ok data => (Except.ok data, setCache m2 url data now, [url])
    | Except.error _ =>
      (Except.error "Failed to fetch data. Please check your internet connection.", m2, [url])

/-- MovieAPI.searchMovies: a blank (empty after trim) query short-circuits
to the sentinel response with no fetchData call at all; otherwise the
trimmed query and page are fetched through fetchData. -/
def searchMovies (m : CacheMap MovieListResponse)
    (net : String → Except String MovieListResponse) (now : Int)
    (query : String) (page : Int) :
    Except String MovieListResponse × CacheMap MovieListResponse × List String :=
  if trimString query = "" then
    (Except.ok ⟨[], 0, 1⟩, m, [])
  else
    fetchData m net now (searchURL (trimString query) page)

/-! ## UIManager browse state machine (src/unnamed/part_001)

The controller state is the five instance fields of UIManager; the
surrounding system state adds the rendered grid, the error panel, the
descriptor of the fetch currently awaited (if any), and the trace of
descriptors issued so far.  Awaiting a fetch is a suspension point:
other events may run before the resolution event is applied. -/

/-- The enumerated category set of the data model (filter buttons and
the Alt-digit shortcuts both draw from exactly this set). -/
inductive Category
  | trending
  | popular
  | top_rated
  | upcoming
  | favorites
deriving DecidableEq, Repr

/-- The five state fields of UIManager. -/
structure UIState where
  currentPage : Int
  currentCategory : Category
  currentSearchQuery : String
  isLoading : Bool
  hasMorePages : Bool
deriving DecidableEq, Repr

/-- What loadMovies decides to fetch, derived from the current state:
a search page, the favorites bookmark list, or a category page. -/
inductive Descriptor
  | search (query : String) (page : Int)
  | favoritesList
  | categoryPage (c : Category) (page : Int)
deriving DecidableEq, Repr

/-- The whole observable system: controller state, rendered grid,
error panel, the awaited fetch, and the issue-ordered fetch trace. -/
structure Sys where
  ui : UIState
  moviesGrid : List Movie
  errorShown : Option String
  inFlight : Option Descriptor
  issued : List Descriptor
deriving DecidableEq, Repr

/-- The query-descriptor branch of loadMovies: a non-empty
currentSearchQuery selects searchMovies, else category favorites
selects the bookmark list, else the category endpoint — all with the
current page. -/
def deriveDescriptor (ui : UIState) : Descriptor :=
  if ui.currentSearchQuery ≠ "" then
    Descriptor.search ui.currentSearchQuery ui.currentPage
  else if ui.currentCategory = Category.favorites then
    Descriptor.favoritesList
  else
    Descriptor.categoryPage ui.currentCategory ui.currentPage

/-- UIManager.loadMovies up to its await point: a no-op while isLoading;
otherwise set the loading flag, hide the error panel, and issue the
fetch for the descriptor derived from the current state.  The code
after the await is the resolution event below. -/
def loadMovies (s : Sys) : Sys :=
  if s.ui.isLoading then s
  else
    let ui2 := { s.ui with isLoading := true }
    let d := deriveDescriptor ui2
    { s with ui := ui2, errorShown := none, inFlight := some d,
             issued := s.issued ++ [d] }

/-- UIManager.switchCategory: an early return when the category is
unchanged and no search is active; otherwise reset category, page,
search query and hasMorePages, clear the grid, and call loadMovies. -/
def switchCategory (s : Sys) (category : Category) : Sys :=
  if category = s.ui.currentCategory ∧ s.ui.currentSearchQuery = "" then s
  else
    let ui2 := { s.ui with
      currentCategory := category
      currentPage := 1
      currentSearchQuery := ""
      hasMorePages := true }
    loadMovies { s with ui := ui2, moviesGrid := [] }

/-- UIManager.performSearch (the debounced commit): trim the query into
the state, reset page and hasMorePages, clear the grid, and call
loadMovies. -/
def performSearch (s : Sys) (query : String) : Sys :=
  let ui2 := { s.ui with
    currentSearchQuery := trimString query
    currentPage := 1
    hasMorePages := true }
  loadMovies { s with ui := ui2, moviesGrid := [] }

/-- UIManager.loadMoreMovies: an early return while loading or when no
more pages are reported; otherwise increment the page and call
loadMovies. -/
def loadMoreMovies (s : Sys) : Sys :=
  if s.ui.isLoading ∨ s.ui.hasMorePages = false then s
  else
    loadMovies { s with ui := { s.ui with currentPage := s.ui.currentPage + 1 } }

/-- Resolution of the awaited fetch with a successful payload: the code
of loadMovies after the await.  The favorites branch wraps the fetched
bookmark list with total_pages = 1; every branch then renders (replace
when the page read at resolution time is 1, append otherwise) and
recomputes hasMorePages from that same page, and finally clears
isLoading.  Without an awaited fetch the event cannot occur. -/
def resolveOk (s : Sys) (results : List Movie) (total_pages : Int) : Sys :=
  match s.inFlight with
  | none => s
  | some d =>
    let resp : MovieListResponse :=
      if d = Descriptor.favoritesList then ⟨results, 1, 1⟩
      else ⟨results, total_pages, s.ui.currentPage⟩
    let grid := if s.ui.currentPage = 1 then resp.results
                else s.moviesGrid ++ resp.results
    { s with
      moviesGrid := grid
      ui := { s.ui with
        hasMorePages := decide (s.ui.currentPage < resp.total_pages)
        isLoading := false }
      inFlight := none }

/-- Resolution of the awaited fetch with a failure: the catch and
finally blocks of loadMovies — show the error, clear isLoading, touch
nothing else. -/
def resolveErr (s : Sys) (message : String) : Sys :=
  match s.inFlight with
  | none => s
  | some _ =>
    { s with
      errorShown := some message
      ui := { s.ui with isLoading := false }
      inFlight := none }

/-- The constructor state of UIManager before initializeUI runs. -/
def initState : Sys :=
  { ui := { currentPage := 1
            currentCategory := Category.trending
            currentSearchQuery := ""
            isLoading := false
            hasMorePages := true }
    moviesGrid := []
    errorShown := none
    inFlight := none
    issued := [] }

/-! ## Debounced search (UIManager.handleSearch)

The pending setTimeout handle is a single optional pending commit: the
scheduled query together with the milliseconds left on its timer.
A keystroke clears any pending timer and schedules a fresh 300 ms one;
the passage of time fires the timer once its remainder elapses, which
invokes performSearch with the scheduled raw text. -/

/-- The debounce handle and the record of performSearch invocations. -/
structure DebounceState where
  pending : Option (String × Nat)
  commits : List String
deriving DecidableEq, Repr

/-- UIManager.handleSearch: clearTimeout on the previous handle, then
setTimeout of performSearch(query) after 300 ms. -/
def handleSearch (st : DebounceState) (query : String) : DebounceState :=
  { st with pending := some (query, 300) }

/-- Passage of d milliseconds: the pending timer fires exactly when its
remainder is at most d, invoking the scheduled commit; otherwise the
remainder decreases by d. -/
def elapse (st : DebounceState) (d : Nat) : DebounceState :=
  match st.pending with
  | none => st
  | some (q, r) =>
    if r ≤ d then { pending := none, commits := st.commits ++ [q] }
    else { st with pending := some (q, r - d) }

/-- A run of keystrokes: each pair is the entered text and the time that
passes after it before the next event. -/
def runKeys (st : DebounceState) : List (String × Nat) → DebounceState
  | [] => st
  | (q, g) :: rest => runKeys (elapse (handleSearch st q) g) rest

/-! ## Persisted-state loaders (src/unnamed/part_000)

localStorage is a function from keys to optional string blobs;
JSON.parse is an oracle returning none exactly on the blobs it would
throw on.  Neither loader can throw: the JS catch blocks are total
branches here. -/

/-- The simulated session object (only the id field is ever read back
by the loaders). -/
structure User where
  id : Int
deriving DecidableEq, Repr

/-- localStorage.removeItem. -/
def removeItem (store : String → Option String) (k : String) :
    String → Option String :=
  fun k2 => if k2 = k then none else store k2

/-- AuthManager.initializeAuth, session-restore part: read the
cinescope_user blob; on a parse failure remove the blob and leave
currentUser at its constructor value null; on success adopt the parsed
user.  Returns currentUser and the store after the load. -/
def initAuth (store : String → Option String)
    (parseUser : String → Option User) :
    Option User × (String → Option String) :=
  match store "cinescope_user" with
  | none => (none, store)
  | some saved =>
    match parseUser saved with
    | some u => (some u, store)
    | none => (none, removeItem store "cinescope_user")

/-- Per-user favorites key. -/
def favoritesKey (userId : Int) : String :=
  "favorites_" ++ toString userId

/-- FavoritesManager.loadFavorites: unauthenticated clears the
in-memory set; an absent blob leaves it untouched; a parsed blob
replaces it; a parse failure resets it to the empty set — and, unlike
initAuth, never removes the blob from the store.  Returns the
in-memory favorites and the store after the load. -/
def loadFavorites (auth : Option User) (store : String → Option String)
    (parseIds : String → Option (List Int)) (favorites : List Int) :
    List Int × (String → Option String) :=
  match auth with
  | none => ([], store)
  | some u =>
    match store (favoritesKey u.id) with
    | none => (favorites, store)
    | some saved =>
      match parseIds saved with
      | some arr => (arr, store)
      | none => ([], store)

/-! ## Helper lemmas -/

/-- loadMovies changes no UIState field other than isLoading. -/
theorem loadMovies_ui_fields (s : Sys) :
    (loadMovies s).ui.currentPage = s.ui.currentPage ∧
    (loadMovies s).ui.currentCategory = s.ui.currentCategory ∧
    (loadMovies s).ui.currentSearchQuery = s.ui.currentSearchQuery ∧
    (loadMovies s).ui.hasMorePages = s.ui.hasMorePages ∧
    (loadMovies s).moviesGrid = s.moviesGrid := by
  unfold loadMovies
  split <;> simp

/-- loadMovies on an idle controller marks it loading and issues exactly
the descriptor derived from the updated state. -/
theorem loadMovies_issue (s : Sys) (h : s.ui.isLoading = false) :
    loadMovies s =
      { s with ui := { s.ui with isLoading := true }
               errorShown := none
               inFlight := some (deriveDescriptor { s.ui with isLoading := true })
               issued := s.issued ++ [deriveDescriptor { s.ui with isLoading := true }] } := by
  unfold loadMovies
  rw [if_neg (by simp [h])]

/-- Appending event lists composes the debounce runs. -/
theorem runKeys_append (l1 l2 : List (String × Nat)) :
    ∀ st : DebounceState, runKeys st (l1 ++ l2) = runKeys (runKeys st l1) l2 := by
  induction l1 with
  | nil => intro st; rfl
  | cons p rest ih =>
    intro st
    obtain ⟨q, g⟩ := p
    simp only [List.cons_append, runKeys]
    exact ih _

/-- Keystrokes each followed by less than the 300 ms window never fire
the pending timer: the commit record is untouched. -/
theorem runKeys_commits_of_lt (init : List (String × Nat)) :
    ∀ st : DebounceState, (∀ p ∈ init, p.2 < 300) →
      (runKeys st init).commits = st.commits := by
  induction init with
  | nil => intro st _; rfl
  | cons p rest ih =>
    intro st h
    obtain ⟨q, g⟩ := p
    have hg : g < 300 := h (q, g) (List.mem_cons_self _ _)
    have hkeep : (elapse (handleSearch st q) g).commits = st.commits := by
      unfold handleSearch elapse
      simp only
      rw [if_neg (by omega)]
    show (runKeys (elapse (handleSearch st q) g) rest).commits = st.commits
    rw [ih _ (fun p hp => h p (List.mem_cons_of_mem _ hp)), hkeep]

/-! ## Claim theorems -/

/-- C2: for every key, stored payload and timestamps, a lookup within
the TTL (difference at most five minutes) returns the stored payload
and leaves the cache untouched; a lookup past the TTL removes the entry
and returns absent, and any subsequent lookup of the key before a new
store also returns absent without changing the cache again — the
removal happens only on the first post-expiry lookup. -/
theorem getCache_ttl_expiry {α : Type} (m : CacheMap α) (k : String) (v : α)
    (t tq ts : Int) (hm : m k = some ⟨v, t⟩) :
    (tq - t ≤ cacheExpiry → getCache m k tq = (some v, m)) ∧
    (tq - t > cacheExpiry →
      getCache m k tq = (none, mapDelete m k) ∧
      getCache (mapDelete m k) k ts = (none, mapDelete m k)) := by
  have hbase : getCache m k tq =
      if tq - t > cacheExpiry then (none, mapDelete m k) else (some v, m) := by
    unfold getCache
    rw [hm]
  refine ⟨fun h => ?_, fun h => ⟨?_, ?_⟩⟩
  · rw [hbase, if_neg (by omega)]
  · rw [hbase, if_pos h]
  · unfold getCache
    have : mapDelete m k k = none := by simp [mapDelete]
    rw [this]

/-- Witness for getCache_ttl_expiry: a payload stored at time 0 is
returned at exactly the TTL boundary (300000 ms); one millisecond later
it is deleted and absent, and a later lookup of the purged cache is
absent and leaves the cache as purged. -/
theorem getCache_ttl_expiry_witness :
    getCache (setCache (fun _ => none) "k" (7 : Nat) 0) "k" 300000 =
      (some 7, setCache (fun _ => none) "k" (7 : Nat) 0) ∧
    getCache (setCache (fun _ => none) "k" (7 : Nat) 0) "k" 300001 =
      (none, mapDelete (setCache (fun _ => none) "k" (7 : Nat) 0) "k") ∧
    getCache (mapDelete (setCache (fun _ => none) "k" (7 : Nat) 0) "k") "k" 999999 =
      (none, mapDelete (setCache (fun _ => none) "k" (7 : Nat) 0) "k") := by
  refine ⟨?_, ?_, ?_⟩
  · exact (getCache_ttl_expiry _ "k" 7 0 300000 999999 rfl).1 (by norm_num [cacheExpiry])
  · exact ((getCache_ttl_expiry _ "k" 7 0 300001 999999 rfl).2 (by norm_num [cacheExpiry])).1
  · exact ((getCache_ttl_expiry _ "k" 7 0 300001 999999 rfl).2 (by norm_num [cacheExpiry])).2

/-- C3: storing a payload and looking it up at the same instant always
returns that payload with no cache change (no false miss right after a
store), and the store itself unconditionally overwrites whatever entry
the key had with the payload and a fresh timestamp. -/
theorem setCache_then_getCache {α : Type} (m : CacheMap α) (k : String)
    (v : α) (now : Int) :
    getCache (setCache m k v now) k now = (some v, setCache m k v now) ∧
    setCache m k v now k = some ⟨v, now⟩ := by
  have hk : setCache m k v now k = some ⟨v, now⟩ := by
    simp [setCache, mapSet]
  refine ⟨?_, hk⟩
  unfold getCache
  rw [hk]
  norm_num [cacheExpiry]

/-- C10: searchMovies on a query that is empty or whitespace-only
returns the sentinel response (empty results, total_pages 0, page 1)
while issuing no network fetch and leaving the cache exactly as it
was. -/
theorem searchMovies_blank_query (m : CacheMap MovieListResponse)
    (net : String → Except String MovieListResponse) (now : Int)
    (query : String) (page : Int) (hq : trimString query = "") :
    searchMovies m net now query page = (Except.ok ⟨[], 0, 1⟩, m, []) := by
  unfold searchMovies
  rw [if_pos hq]

/-- Witness for searchMovies_blank_query at the whitespace-only query
made of three spaces, page 3, over the empty cache and an
always-failing network. -/
theorem searchMovies_blank_query_witness :
    searchMovies (fun _ => none) (fun _ => Except.error "down") 0 "   " 3 =
      (Except.ok ⟨[], 0, 1⟩, (fun _ => none), []) :=
  searchMovies_blank_query (fun _ => none) (fun _ => Except.error "down") 0 "   " 3
    (by decide)

/-- C4: under its precondition (different category or an active
search), switchCategory sets the chosen category, resets the page to 1
and hasMorePages to true, and clears the search query; performSearch
resets the page to 1 and hasMorePages to true from any prior state. -/
theorem resetEvents_reset_pagination (s : Sys) (c : Category) (q : String)
    (hpre : c ≠ s.ui.currentCategory ∨ s.ui.currentSearchQuery ≠ "") :
    (switchCategory s c).ui.currentCategory = c ∧
    (switchCategory s c).ui.currentPage = 1 ∧
    (switchCategory s c).ui.hasMorePages = true ∧
    (switchCategory s c).ui.currentSearchQuery = "" ∧
    (performSearch s q).ui.currentPage = 1 ∧
    (performSearch s q).ui.hasMorePages = true := by
  have hguard : ¬(c = s.ui.currentCategory ∧ s.ui.currentSearchQuery = "") := by
    rcases hpre with h | h
    · exact fun hc => h hc.1
    · exact fun hc => h hc.2
  unfold switchCategory performSearch
  rw [if_neg hguard]
  refine ⟨?_, ?_, ?_, ?_, ?_, ?_⟩ <;>
    simp [(loadMovies_ui_fields _).1, (loadMovies_ui_fields _).2.1,
      (loadMovies_ui_fields _).2.2.1, (loadMovies_ui_fields _).2.2.2.1]

/-- Witness for resetEvents_reset_pagination: from the initial state
(category trending, page 1), selectCategory popular yields category
popular, page 1, hasMorePages true and an empty search query, and
commitSearch dune yields page 1 and hasMorePages true. -/
theorem resetEvents_reset_pagination_witness :
    (switchCategory initState Category.popular).ui.currentCategory = Category.popular ∧
    (switchCategory initState Category.popular).ui.currentPage = 1 ∧
    (switchCategory initState Category.popular).ui.hasMorePages = true ∧
    (switchCategory initState Category.popular).ui.currentSearchQuery = "" ∧
    (performSearch initState "dune").ui.currentPage = 1 ∧
    (performSearch initState "dune").ui.hasMorePages = true :=
  resetEvents_reset_pagination initState Category.popular "dune" (Or.inl (by decide))

/-- C5: while isLoading is set or hasMorePages is cleared, loadMore
leaves the entire system unchanged (no state change, no fetch in the
issue trace); otherwise it increments the page by exactly one, issues
the fetch derived from the incremented state, and that fetch's
successful resolution appends its results to the displayed grid. -/
theorem loadMoreMovies_guard (s : Sys) (results : List Movie) (tp : Int) :
    (s.ui.isLoading = true ∨ s.ui.hasMorePages = false → loadMoreMovies s = s) ∧
    (s.ui.isLoading = false → s.ui.hasMorePages = true → 1 ≤ s.ui.currentPage →
      (loadMoreMovies s).ui.currentPage = s.ui.currentPage + 1 ∧
      (loadMoreMovies s).issued =
        s.issued ++ [deriveDescriptor ((loadMoreMovies s).ui)] ∧
      (resolveOk (loadMoreMovies s) results tp).moviesGrid =
        s.moviesGrid ++ results) := by
  constructor
  · intro h
    unfold loadMoreMovies
    rw [if_pos (by rcases h with h | h <;> simp [h])]
  · intro h1 h2 hp
    have hguard : ¬(s.ui.isLoading = true ∨ s.ui.hasMorePages = false) := by
      simp [h1, h2]
    have hstep : loadMoreMovies s =
        loadMovies { s with ui := { s.ui with currentPage := s.ui.currentPage + 1 } } := by
      unfold loadMoreMovies
      rw [if_neg (by simp [h1, h2])]
    rw [hstep, loadMovies_issue _ (by simp [h1])]
    refine ⟨rfl, rfl, ?_⟩
    unfold resolveOk
    simp only
    rw [if_neg (by omega)]
    split <;> simp

/-- Witness for loadMoreMovies_guard: loadMore on the system busy with
the initial fetch is the identity, and loadMore on the idle initial
state moves to page 2, issues the trending page-2 descriptor, and a
successful resolution appends to the (empty) grid. -/
theorem loadMoreMovies_guard_witness :
    loadMoreMovies (loadMovies initState) = loadMovies initState ∧
    (loadMoreMovies initState).ui.currentPage = 1 + 1 ∧
    (loadMoreMovies initState).issued =
      initState.issued ++ [deriveDescriptor ((loadMoreMovies initState).ui)] ∧
    (resolveOk (loadMoreMovies initState) [⟨5⟩] 9).moviesGrid =
      initState.moviesGrid ++ [⟨5⟩] := by
  refine ⟨(loadMoreMovies_guard (loadMovies initState) [⟨5⟩] 9).1 (Or.inl (by decide)),
    ?_⟩
  have h := (loadMoreMovies_guard initState [⟨5⟩] 9).2 (by decide) (by decide)
    (by norm_num [initState])
  exact ⟨h.1, h.2.1, h.2.2⟩

/-- C6 counterexample: from the idle initial state (page 1, more pages
assumed), a loadMore whose fetch then fails leaves the page at 2, not
at the page 1 the user initiated the event from — the increment
performed before the fetch is never rolled back. -/
theorem loadMore_failure_page_advanced :
    initState.ui.currentPage = 1 ∧
    initState.ui.isLoading = false ∧
    initState.ui.hasMorePages = true ∧
    (resolveErr (loadMoreMovies initState) "HTTP error! status: 500").ui.currentPage = 2 := by
  decide

/-- C6 amended: resolution of a failed fetch surfaces the error to the
display layer, clears isLoading, and mutates nothing else — page,
hasMorePages, category, search query and the grid all keep the values
they had when the fetch was issued; in particular, after a failed
loadMore the page stays at its already-incremented value (the increment
precedes the fetch and is not undone), and hasMorePages is unchanged. -/
theorem fetchFailure_preserves_state (s s2 : Sys) (d : Descriptor) (msg : String)
    (hf : s.inFlight = some d)
    (h2a : s2.ui.isLoading = false) (h2b : s2.ui.hasMorePages = true) :
    (resolveErr s msg).errorShown = some msg ∧
    (resolveErr s msg).ui.isLoading = false ∧
    (resolveErr s msg).ui.currentPage = s.ui.currentPage ∧
    (resolveErr s msg).ui.hasMorePages = s.ui.hasMorePages ∧
    (resolveErr s msg).ui.currentCategory = s.ui.currentCategory ∧
    (resolveErr s msg).ui.currentSearchQuery = s.ui.currentSearchQuery ∧
    (resolveErr s msg).moviesGrid = s.moviesGrid ∧
    (resolveErr (loadMoreMovies s2) msg).ui.currentPage = s2.ui.currentPage + 1 ∧
    (resolveErr (loadMoreMovies s2) msg).ui.hasMorePages = s2.ui.hasMorePages := by
  have hr : resolveErr s msg =
      { s with errorShown := some msg
               ui := { s.ui with isLoading := false }
               inFlight := none } := by
    unfold resolveErr
    rw [hf]
  have hstep : loadMoreMovies s2 =
      loadMovies { s2 with ui := { s2.ui with currentPage := s2.ui.currentPage + 1 } } := by
    unfold loadMoreMovies
    rw [if_neg (by simp [h2a, h2b])]
  have hload := loadMovies_issue
    { s2 with ui := { s2.ui with currentPage := s2.ui.currentPage + 1 } } (by simp [h2a])
  have hr2 : resolveErr (loadMoreMovies s2) msg =
      { (loadMoreMovies s2) with
          errorShown := some msg
          ui := { (loadMoreMovies s2).ui with isLoading := false }
          inFlight := none } := by
    unfold resolveErr
    rw [hstep, hload]
  rw [hr, hr2, hstep, hload]
  simp [h2b]

/-- Witness for fetchFailure_preserves_state: the system busy with the
initial trending fetch, and the idle initial state for the loadMore
part. -/
theorem fetchFailure_preserves_state_witness :
    (resolveErr (loadMovies initState) "down").errorShown = some "down" ∧
    (resolveErr (loadMovies initState) "down").ui.isLoading = false ∧
    (resolveErr (loadMovies initState) "down").ui.currentPage =
      (loadMovies initState).ui.currentPage ∧
    (resolveErr (loadMovies initState) "down").ui.hasMorePages =
      (loadMovies initState).ui.hasMorePages ∧
    (resolveErr (loadMovies initState) "down").ui.currentCategory =
      (loadMovies initState).ui.currentCategory ∧
    (resolveErr (loadMovies initState) "down").ui.currentSearchQuery =
      (loadMovies initState).ui.currentSearchQuery ∧
    (resolveErr (loadMovies initState) "down").moviesGrid =
      (loadMovies initState).moviesGrid ∧
    (resolveErr (loadMoreMovies initState) "down").ui.currentPage =
      initState.ui.currentPage + 1 ∧
    (resolveErr (loadMoreMovies initState) "down").ui.hasMorePages =
      initState.ui.hasMorePages :=
  fetchFailure_preserves_state (loadMovies initState) initState
    (Descriptor.categoryPage Category.trending 1) "down" (by decide) (by decide) (by decide)

/-- C1, evaluated at the failing input: the initial trending page-1
fetch is in flight when the user switches to category popular; the
switch resets the state but its loadMovies call is suppressed by the
isLoading guard, so no popular fetch is ever issued, and when the stale
trending fetch resolves, its payload is rendered as the displayed
result set of the popular state (page 1 forces a replace) — the stale
result is applied, not discarded. -/
theorem staleFetch_overwrites_newer_state :
    (loadMovies initState).inFlight =
      some (Descriptor.categoryPage Category.trending 1) ∧
    (switchCategory (loadMovies initState) Category.popular).ui.currentCategory =
      Category.popular ∧
    (switchCategory (loadMovies initState) Category.popular).inFlight =
      some (Descriptor.categoryPage Category.trending 1) ∧
    (resolveOk (switchCategory (loadMovies initState) Category.popular)
        [⟨11⟩, ⟨22⟩] 5).ui.currentCategory = Category.popular ∧
    (resolveOk (switchCategory (loadMovies initState) Category.popular)
        [⟨11⟩, ⟨22⟩] 5).moviesGrid = [⟨11⟩, ⟨22⟩] ∧
    (resolveOk (switchCategory (loadMovies initState) Category.popular)
        [⟨11⟩, ⟨22⟩] 5).issued = [Descriptor.categoryPage Category.trending 1] := by
  decide

/-- C7: over any run of keystrokes in which every keystroke is followed
by strictly less than the 300 ms debounce window before the next one,
and the last keystroke by a full quiet period, exactly one commit
results — the last entered text — with no timer left pending; each
earlier scheduled commit was cancelled by the keystroke after it.  The
commit then stores the trimmed text as the search query. -/
theorem debounce_single_commit (init : List (String × Nat)) (qn : String)
    (gn : Nat) (st : DebounceState) (s : Sys)
    (hinit : ∀ p ∈ init, p.2 < 300) (hgn : 300 ≤ gn) :
    (runKeys st (init ++ [(qn, gn)])).commits = st.commits ++ [qn] ∧
    (runKeys st (init ++ [(qn, gn)])).pending = none ∧
    (performSearch s qn).ui.currentSearchQuery = trimString qn := by
  have hlast : ∀ st2 : DebounceState,
      runKeys st2 [(qn, gn)] = ⟨none, st2.commits ++ [qn]⟩ := by
    intro st2
    show elapse (handleSearch st2 qn) gn = _
    unfold handleSearch elapse
    simp only
    rw [if_pos hgn]
  refine ⟨?_, ?_, ?_⟩
  · rw [runKeys_append, hlast]
    simp only
    rw [runKeys_commits_of_lt init st hinit]
  · rw [runKeys_append, hlast]
  · unfold performSearch
    simp only
    rw [(loadMovies_ui_fields _).2.2.1]

/-- Witness for debounce_single_commit: three keystrokes du, dun, dune
separated by 100 ms and 250 ms, then 300 ms of quiet, commit exactly
once with dune. -/
theorem debounce_single_commit_witness :
    (runKeys ⟨none, []⟩ ([("du", 100), ("dun", 250)] ++ [("dune", 300)])).commits =
      [] ++ ["dune"] ∧
    (runKeys ⟨none, []⟩ ([("du", 100), ("dun", 250)] ++ [("dune", 300)])).pending =
      none ∧
    (performSearch initState "dune").ui.currentSearchQuery = trimString "dune" :=
  debounce_single_commit [("du", 100), ("dun", 250)] "dune" 300 ⟨none, []⟩ initState
    (by decide) (by decide)

/-- C9 counterexample: an authenticated user with a corrupt favorites
blob — the loader resets the in-memory favorites to the empty set, but
the corrupt record is left in the persistent store, not discarded. -/
theorem corrupt_favorites_record_kept :
    (loadFavorites (some ⟨123⟩)
      (fun k => if k = "favorites_123" then some "corrupt" else none)
      (fun _ => none) [7]).1 = [] ∧
    (loadFavorites (some ⟨123⟩)
      (fun k => if k = "favorites_123" then some "corrupt" else none)
      (fun _ => none) [7]).2 "favorites_123" = some "corrupt" := by
  constructor <;> rfl

/-- C9 amended: a corrupt session blob is discarded from the persistent
store and leaves the session unauthenticated (currentUser null), while
a corrupt favorites blob resets the in-memory favorites to the empty
set but leaves the persisted record untouched; neither loader throws
(both are total). -/
theorem corrupt_blob_recovery (store : String → Option String)
    (parseUser : String → Option User) (parseIds : String → Option (List Int))
    (u : User) (fav : List Int) (sU sF : String)
    (hU : store "cinescope_user" = some sU) (hpU : parseUser sU = none)
    (hF : store (favoritesKey u.id) = some sF) (hpF : parseIds sF = none) :
    initAuth store parseUser = (none, removeItem store "cinescope_user") ∧
    removeItem store "cinescope_user" "cinescope_user" = none ∧
    loadFavorites (some u) store parseIds fav = ([], store) := by
  refine ⟨?_, by simp [removeItem], ?_⟩
  · simp only [initAuth, hU, hpU]
  · simp only [loadFavorites, hF, hpF]

/-- Witness for corrupt_blob_recovery: a store holding unparsable blobs
for both the session key and user 9's favorites key. -/
theorem corrupt_blob_recovery_witness :
    initAuth
      (fun k => if k = "cinescope_user" then some "bad"
                else if k = "favorites_9" then some "worse" else none)
      (fun _ => none) =
      (none, removeItem
        (fun k => if k = "cinescope_user" then some "bad"
                  else if k = "favorites_9" then some "worse" else none)
        "cinescope_user") ∧
    removeItem
      (fun k => if k = "cinescope_user" then some "bad"
                else if k = "favorites_9" then some "worse" else none)
      "cinescope_user" "cinescope_user" = none ∧
    loadFavorites (some ⟨9⟩)
      (fun k => if k = "cinescope_user" then some "bad"
                else if k = "favorites_9" then some "worse" else none)
      (fun _ => none) [1, 2] =
      ([], fun k => if k = "cinescope_user" then some "bad"
                    else if k = "favorites_9" then some "worse" else none) :=
  corrupt_blob_recovery _ (fun _ => none) (fun _ => none) ⟨9⟩ [1, 2] "bad" "worse"
    rfl rfl rfl rfl

/-- C8: the query descriptor is derived fresh from the current state —
a non-empty search query yields the search descriptor with that query
and the current page; otherwise category favorites yields the bookmark
list, which bypasses the cache-backed paginated endpoints and whose
resolution is treated as a single-page result (total_pages 1, so no
further pages from page 1); otherwise the category endpoint with the
current page.  Scenario: commitSearch dune followed by loadMore issues
exactly the descriptors search dune page 1 then search dune page 2, in
that order. -/
theorem descriptor_scenario (s : Sys) (ui : UIState) (results : List Movie)
    (tp : Int) (hs1 : s.ui.isLoading = false) (htp : 2 ≤ tp) :
    (ui.currentSearchQuery ≠ "" →
      deriveDescriptor ui = Descriptor.search ui.currentSearchQuery ui.currentPage) ∧
    (ui.currentSearchQuery = "" → ui.currentCategory = Category.favorites →
      deriveDescriptor ui = Descriptor.favoritesList) ∧
    (ui.currentSearchQuery = "" → ui.currentCategory ≠ Category.favorites →
      deriveDescriptor ui = Descriptor.categoryPage ui.currentCategory ui.currentPage) ∧
    (s.inFlight = some Descriptor.favoritesList → s.ui.currentPage = 1 →
      (resolveOk s results tp).ui.hasMorePages = false) ∧
    (loadMoreMovies (resolveOk (performSearch s "dune") results tp)).issued =
      s.issued ++ [Descriptor.search "dune" 1, Descriptor.search "dune" 2] := by
  have htrim : trimString "dune" = "dune" := by decide
  refine ⟨?_, ?_, ?_, ?_, ?_⟩
  · intro h
    unfold deriveDescriptor
    rw [if_pos h]
  · intro h1 h2
    unfold deriveDescriptor
    rw [if_neg (by simp [h1]), if_pos h2]
  · intro h1 h2
    unfold deriveDescriptor
    rw [if_neg (by simp [h1]), if_neg h2]
  · intro hin hpage
    unfold resolveOk
    rw [hin]
    simp [hpage]
  · have hA : performSearch s "dune" =
        loadMovies { s with
          ui := { s.ui with currentSearchQuery := trimString "dune",
                            currentPage := 1, hasMorePages := true },
          moviesGrid := [] } := rfl
    rw [hA, loadMovies_issue _ (by simp [hs1])]
    simp only [deriveDescriptor, htrim]
    rw [if_pos (by decide)]
    unfold resolveOk
    simp only
    rw [if_neg (by decide)]
    simp only
    unfold loadMoreMovies
    simp only
    rw [if_neg (by simp; omega)]
    rw [loadMovies_issue _ (by simp)]
    simp [deriveDescriptor, htrim]

/-- Witness for descriptor_scenario: the three derivation branches at
concrete states, the single-page favorites resolution from the initial
page, and the dune search scenario from the initial state. -/
theorem descriptor_scenario_witness :
    deriveDescriptor ⟨3, Category.favorites, "q", false, true⟩ =
      Descriptor.search "q" 3 ∧
    deriveDescriptor ⟨1, Category.favorites, "", false, true⟩ =
      Descriptor.favoritesList ∧
    deriveDescriptor ⟨2, Category.popular, "", false, true⟩ =
      Descriptor.categoryPage Category.popular 2 ∧
    (resolveOk { initState with inFlight := some Descriptor.favoritesList }
      [⟨1⟩] 2).ui.hasMorePages = false ∧
    (loadMoreMovies (resolveOk (performSearch initState "dune") [⟨1⟩] 2)).issued =
      initState.issued ++ [Descriptor.search "dune" 1, Descriptor.search "dune" 2] := by
  refine ⟨?_, ?_, ?_, ?_, ?_⟩
  · exact (descriptor_scenario initState ⟨3, Category.favorites, "q", false, true⟩
      [⟨1⟩] 2 rfl (by norm_num)).1 (by decide)
  · exact (descriptor_scenario initState ⟨1, Category.favorites, "", false, true⟩
      [⟨1⟩] 2 rfl (by norm_num)).2.1 rfl rfl
  · exact (descriptor_scenario initState ⟨2, Category.popular, "", false, true⟩
      [⟨1⟩] 2 rfl (by norm_num)).2.2.1 rfl (by decide)
  · exact (descriptor_scenario
      { initState with inFlight := some Descriptor.favoritesList } initState.ui
      [⟨1⟩] 2 rfl (by norm_num)).2.2.2.1 rfl rfl
  · exact (descriptor_scenario initState initState.ui
      [⟨1⟩] 2 rfl (by norm_num)).2.2.2.2

end Cinescope
